import Mathlib

set_option maxRecDepth 8192

/-!
# Verification of the Hermes global-object bootstrap and numeric parsers

A shallow embedding of `lib/VM/JSLib/GlobalObject.cpp`: the `parseInt` and
`parseFloat` native functions, the `isPrefix` helper, the property-attribute
descriptors, and the bootstrap sequencing of `initGlobalObject`.

Strings are embedded as `List Char` (the source operates on `char16_t`
code units; every character relevant here is a BMP scalar). JavaScript
numbers are embedded exactly: integers as `Int` for `parseInt`, rationals
as `Rat` for `parseFloat`; the NaN result is `Option.none` (for `parseInt`)
or a dedicated constructor of `JSVal` (for `parseFloat`).
-/

namespace Hermes

/-! ## Character classification helpers

`isWhiteSpaceChar`, `isLineTerminatorChar` and `letterToLower` are Hermes
library routines that live outside the provided source file. -/

/-- Modelled from the spec: the ES5.1 WhiteSpace set used by
`isWhiteSpaceChar` (TAB, VT, FF, SP, NBSP, BOM and the Unicode space
separators), which is Hermes library code outside the provided file. -/
def isWhiteSpaceChar (c : Char) : Bool :=
  c.toNat = 0x20 ∨ c.toNat = 0x9 ∨ c.toNat = 0xb ∨ c.toNat = 0xc ∨
  c.toNat = 0xa0 ∨ c.toNat = 0xfeff ∨ c.toNat = 0x1680 ∨
  (0x2000 ≤ c.toNat ∧ c.toNat ≤ 0x200a) ∨
  c.toNat = 0x202f ∨ c.toNat = 0x205f ∨ c.toNat = 0x3000

/-- Modelled from the spec: the ES5.1 LineTerminator set used by
`isLineTerminatorChar` (LF, CR, LS, PS), Hermes library code outside the
provided file. -/
def isLineTerminatorChar (c : Char) : Bool :=
  c.toNat = 0xa ∨ c.toNat = 0xd ∨ c.toNat = 0x2028 ∨ c.toNat = 0x2029

/-- Modelled from the spec: `letterToLower`, the case-folding primitive the
parsers use to treat letters case-insensitively; on the ASCII range relevant
to radix digits and the `0x`/`e` markers it lower-cases `A`–`Z`. -/
def letterToLower (c : Char) : Char :=
  if 'A' ≤ c ∧ c ≤ 'Z' then Char.ofNat (c.toNat + 32) else c

/-- A character skipped by the leading-trim loops of both parsers
(`isWhiteSpaceChar(*begin) || isLineTerminatorChar(*begin)`). -/
def isTrimmedChar (c : Char) : Bool :=
  isWhiteSpaceChar c || isLineTerminatorChar c

/-- Source `isValidRadixChar` (GlobalObject.cpp lines 52–59): given a character
`c` in radix `radix`, checks if it is valid. -/
def isValidRadixChar (c : Char) (radix : Int) : Bool :=
  if '0' ≤ c ∧ c ≤ '9' then
    decide (radix ≥ 10 ∨ (c.toNat : Int) < ('0'.toNat : Int) + radix)
  else
    let l := letterToLower c
    decide (radix > 10 ∧ 'a' ≤ l ∧ (l.toNat : Int) < ('a'.toNat : Int) + radix - 10)

/-- The numeric value of a digit character under the case-insensitive
0–9-then-letters alphabet (`none` when the character is in neither range). -/
def charDigitValue (c : Char) : Option Nat :=
  if '0' ≤ c ∧ c ≤ '9' then some (c.toNat - '0'.toNat)
  else
    let l := letterToLower c
    if 'a' ≤ l ∧ l ≤ 'z' then some (l.toNat - 'a'.toNat + 10)
    else none

/-- Modelled from the spec: `parseIntWithRadix` / `digitsWithRadixToDouble`,
the "parse digits with radix" primitive (outside the provided file) that
converts a digit run plus a radix into a magnitude; the accumulation is the
radix-weighted (Horner) sum of the digit values. -/
def parseIntWithRadix (digits : List Char) (radix : Int) : Int :=
  digits.foldl (fun acc c => acc * radix + ((charDigitValue c).getD 0 : Int)) 0

/-- Modelled from the spec: ES `ToInt32` restricted to integer arguments —
wrap into `[-2^31, 2^31)`. (`toInt32` is an Operations.h routine outside the
provided file; `parseInt` applies it to the radix argument before any
examination of the radix value.) -/
def toInt32 (x : Int) : Int :=
  (x + 2 ^ 31) % 2 ^ 32 - 2 ^ 31

/-! ## parseInt (GlobalObject.cpp lines 61–132) -/

/-- The radix-argument processing of `parseInt` (lines 71–87): `none` models
an absent or undefined second argument. Returns `none` for the immediate-NaN
out-of-range case, otherwise the active radix together with the
`stripPrefix` flag. -/
def parseIntRadixSetup (arg : Option Int) : Option (Int × Bool) :=
  match arg with
  | none => some (10, true)
  | some v =>
    let radix := toInt32 v
    if radix = 0 then some (10, true)
    else if radix < 2 ∨ radix > 36 then none
    else if radix ≠ 16 then some (radix, false)
    else some (radix, true)

/-- The `0x`/`0X` stripping step of `parseInt` (lines 108–119): when the
strip flag is set and the text starts with `0` followed (case-insensitively)
by `x`, both characters are consumed and the radix becomes 16. -/
def strip0x (strip : Bool) (radix : Int) (s : List Char) : List Char × Int :=
  if strip then
    match s with
    | '0' :: c :: rest => if letterToLower c = 'x' then (rest, 16) else (s, radix)
    | _ => (s, radix)
  else (s, radix)

/-- Source `parseInt(string, radix)` (lines 61–132). The first argument is the
string form of the input; `none` as radix models the absent argument, and
the `none` result models NaN. -/
def parseInt (s : List Char) (radixArg : Option Int) : Option Int :=
  match parseIntRadixSetup radixArg with
  | none => none
  | some (radix₀, strip) =>
    let s₁ := s.dropWhile isTrimmedChar
    let sign : Int := if s₁.head? = some '-' then -1 else 1
    let s₂ := if s₁.head? = some '+' ∨ s₁.head? = some '-' then s₁.tail else s₁
    let stripped := strip0x strip radix₀ s₂
    let digits := stripped.1.takeWhile (isValidRadixChar · stripped.2)
    if digits.isEmpty then none
    else some (sign * parseIntWithRadix digits stripped.2)

/-! ## parseFloat (GlobalObject.cpp lines 134–237) -/

/-- The numeric result domain of `parseFloat`: NaN, the two infinities, or a
finite value (embedded exactly as a rational). -/
inductive JSVal where
  | nan
  | inf
  | negInf
  | num (q : ℚ)
deriving DecidableEq

/-- The element-compare loop of `isPrefix` (lines 139–146); it is only
entered when `str1` is no longer than `str2`, so the `str2`-exhausted case
is unreachable under that guard. -/
def isPrefixLoop : List Char → List Char → Bool
  | [], _ => true
  | _ :: _, [] => true
  | c1 :: t1, c2 :: t2 => c1 = c2 && isPrefixLoop t1 t2

/-- Source `isPrefix` (lines 134–147): check if `str1` is a prefix of `str2`. -/
def isPrefix (str1 str2 : List Char) : Bool :=
  if str1.length > str2.length then false else isPrefixLoop str1 str2

/-- The `Predefined::Infinity` string. -/
def strInfinity : List Char := "Infinity".data

/-- The `Predefined::PositiveInfinity` string. -/
def strPositiveInfinity : List Char := "+Infinity".data

/-- The `Predefined::NegativeInfinity` string. -/
def strNegativeInfinity : List Char := "-Infinity".data

/-- The `Predefined::NaN` string. -/
def strNaN : List Char := "NaN".data

/-- The character filter of the copy loop of `parseFloat` (line 210):
decimal digits, `.`, `e`/`E` (via `letterToLower`), `+`, `-`. -/
def isFloatChar (c : Char) : Bool :=
  ('0' ≤ c ∧ c ≤ '9') ∨ c = '.' ∨ letterToLower c = 'e' ∨ c = '+' ∨ c = '-'

/-- ASCII decimal digit test. -/
def isAsciiDigit (c : Char) : Bool :=
  '0' ≤ c ∧ c ≤ '9'

/-- Decimal value of an ASCII digit run. -/
def digitsToNat (l : List Char) : Nat :=
  l.foldl (fun acc c => acc * 10 + (c.toNat - '0'.toNat)) 0

/-- Modelled from the spec: the `stringToDouble` collaborator (`g_strtod`
from the dtoa library, outside the provided file). It parses the longest
initial C-locale decimal floating literal
`sign? (digits [. digits?] | . digits) ((e|E) sign? digits)?`, returning the
number of characters consumed (0 when no valid literal starts the text) and
the value, here computed exactly as a rational. On the restricted alphabet
produced by the copy loop of `parseFloat`, no hexadecimal, `inf` or `nan`
form can occur. -/
def strtod (l : List Char) : Nat × ℚ :=
  let signPart : ℚ × Nat × List Char :=
    match l with
    | '+' :: t => (1, 1, t)
    | '-' :: t => (-1, 1, t)
    | _ => (1, 0, l)
  let signFactor := signPart.1
  let signLen := signPart.2.1
  let r1 := signPart.2.2
  let intDigits := r1.takeWhile isAsciiDigit
  let r2 := r1.drop intDigits.length
  let fracPart : List Char × Nat × List Char :=
    match r2 with
    | '.' :: t => (t.takeWhile isAsciiDigit, 1, t.drop (t.takeWhile isAsciiDigit).length)
    | _ => ([], 0, r2)
  let fracDigits := fracPart.1
  let dotLen := fracPart.2.1
  let r3 := fracPart.2.2
  if intDigits.isEmpty ∧ fracDigits.isEmpty then (0, 0)
  else
    let mantissa : ℚ :=
      (digitsToNat intDigits : ℚ) + (digitsToNat fracDigits : ℚ) / 10 ^ fracDigits.length
    let consumed := signLen + intDigits.length + dotLen + fracDigits.length
    let value := signFactor * mantissa
    match r3 with
    | e :: t =>
      if letterToLower e = 'e' then
        let expPart : Int × Nat × List Char :=
          match t with
          | '+' :: u => (1, 1, u)
          | '-' :: u => (-1, 1, u)
          | _ => (1, 0, t)
        let expDigits := expPart.2.2.takeWhile isAsciiDigit
        if expDigits.isEmpty then (consumed, value)
        else (consumed + 1 + expPart.2.1 + expDigits.length,
              value * (10 : ℚ) ^ (expPart.1 * (digitsToNat expDigits : Int)))
      else (consumed, value)
    | [] => (consumed, value)

/-- Source `parseFloat(string)` (lines 149–237). -/
def parseFloat (s : List Char) : JSVal :=
  let str16 := s.dropWhile isTrimmedChar
  if isPrefix strInfinity str16 then .inf
  else if isPrefix strPositiveInfinity str16 then .inf
  else if isPrefix strNegativeInfinity str16 then .negInf
  else if isPrefix strNaN str16 then .nan
  else
    let str8 := str16.takeWhile isFloatChar
    if str8.length = 0 then .nan
    else
      let probed := strtod str8
      if probed.1 = 0 then .nan
      else .num (strtod (str8.take probed.1)).2

/-- The condition under which `parseFloat` falls through to the numeric
path: none of the four literal tokens is a prefix of the trimmed text. -/
def noTokenMatch (s : List Char) : Prop :=
  isPrefix strInfinity (s.dropWhile isTrimmedChar) = false ∧
  isPrefix strPositiveInfinity (s.dropWhile isTrimmedChar) = false ∧
  isPrefix strNegativeInfinity (s.dropWhile isTrimmedChar) = false ∧
  isPrefix strNaN (s.dropWhile isTrimmedChar) = false

/-! ## Property attribute descriptors and the global installs
(GlobalObject.cpp lines 254–318 and 605–681) -/

/-- The attribute-descriptor triple-of-flags plus its which-flags-to-set
mask, as populated by `initGlobalObject`. -/
structure DefinePropertyFlags where
  setEnumerable : Bool := false
  setWritable : Bool := false
  setConfigurable : Bool := false
  setValue : Bool := false
  enumerable : Bool := false
  writable : Bool := false
  configurable : Bool := false
deriving DecidableEq

/-- Source `constantDPF` (lines 258–265): not enumerable, not writable, not
configurable. -/
def constantDPF : DefinePropertyFlags :=
  { setEnumerable := true, setWritable := true, setConfigurable := true,
    setValue := true, enumerable := false, writable := false,
    configurable := false }

/-- Source `normalDPF` (lines 268–275): not enumerable, but writable and
configurable. -/
def normalDPF : DefinePropertyFlags :=
  { setEnumerable := true, setWritable := true, setConfigurable := true,
    setValue := true, enumerable := false, writable := true,
    configurable := true }

/-- Source `clearConfigurableDPF` (lines 278–280): clear the configurable flag,
touching nothing else. -/
def clearConfigurableDPF : DefinePropertyFlags :=
  { setConfigurable := true, configurable := false }

/-- The global properties installed by `initGlobalObject`, in source order,
each with the descriptor used to install it: the three constants (lines
296–318), `parseInt`/`parseFloat` (lines 380–390, via `defineGlobalFunc`,
which always uses `normalDPF`), the `Math`/`JSON`/`HermesInternal`
namespace objects (lines 605–627), and the remaining global functions
(lines 641–680). -/
def globalInstalls : List (String × DefinePropertyFlags) :=
  [("NaN", constantDPF), ("Infinity", constantDPF), ("undefined", constantDPF),
   ("parseInt", normalDPF), ("parseFloat", normalDPF),
   ("Math", normalDPF), ("JSON", normalDPF), ("HermesInternal", constantDPF),
   ("print", normalDPF), ("eval", normalDPF), ("isNaN", normalDPF),
   ("isFinite", normalDPF), ("escape", normalDPF), ("unescape", normalDPF),
   ("decodeURI", normalDPF), ("decodeURIComponent", normalDPF),
   ("encodeURI", normalDPF), ("encodeURIComponent", normalDPF),
   ("gc", normalDPF)]

/-- The descriptor a given global property was installed with. -/
def globalPropFlags (name : String) : Option DefinePropertyFlags :=
  (globalInstalls.lookup name)

/-! ## The [[ThrowTypeError]] poison pill (lines 245–250 and 361–378) -/

/-- The opaque context pointer of a NativeCallable, modelled as a tagged
union per the spec's design note (`NoContext | FixedMessage(text)`). -/
inductive NativeCtx where
  | noCtx
  | fixedMessage (msg : String)
deriving DecidableEq

/-- User-visible errors raised by this core. -/
inductive JSError where
  | typeError (msg : String)
deriving DecidableEq

/-- Values passed to and returned from native calls (only the shape
matters here). -/
inductive HValue where
  | undef
  | number (q : ℚ)
  | boolean (b : Bool)
deriving DecidableEq

/-- Source `throwTypeError` (lines 245–250): reinterpret the context as the
diagnostic message and raise a TypeError carrying it. The source asserts
the context is never null; the `noCtx` branch is unreachable in the
bootstrap. -/
def throwTypeError (ctx : NativeCtx) (_args : List HValue) :
    Except JSError HValue :=
  match ctx with
  | .fixedMessage m => .error (.typeError m)
  | .noCtx => .error (.typeError "")

/-- The fixed diagnostic message baked into [[ThrowTypeError]] at bootstrap
(line 365). -/
def restrictedMessage : String := "Restricted in strict mode"

/-- The [[ThrowTypeError]] function object as built at bootstrap (lines
361–375): fixed-message context, `length` property re-defined with
`clearConfigurableDPF`, hence non-configurable. -/
structure PoisonPill where
  context : NativeCtx
  lengthConfigurable : Bool

/-- The bootstrap-time [[ThrowTypeError]] object. -/
def throwTypeErrorFunction : PoisonPill :=
  { context := .fixedMessage restrictedMessage,
    lengthConfigurable := clearConfigurableDPF.configurable }

/-- Invoking the poison pill with any arguments. -/
def invokeThrowTypeError (args : List HValue) : Except JSError HValue :=
  throwTypeError throwTypeErrorFunction.context args

/-! ## The prototype graph built by initGlobalObject (lines 320–525)

Each constructor of `ProtoId` is one prototype object created by the
bootstrap. The native-error list and the typed-array list are expanded from
`NativeErrorTypes.def` / `TypedArrays.def` (modelled from the spec: those
.def files are repository code outside the provided file; the spec lists
"Error-and-its-subtypes (TypeError, RangeError, etc.)" and "each TypedArray
variant"). -/
inductive ProtoId where
  | objectPrototype
  | errorPrototype
  | evalErrorPrototype
  | rangeErrorPrototype
  | referenceErrorPrototype
  | syntaxErrorPrototype
  | typeErrorPrototype
  | uriErrorPrototype
  | functionPrototype
  | stringPrototype
  | numberPrototype
  | booleanPrototype
  | symbolPrototype
  | datePrototype
  | iteratorPrototype
  | arrayPrototype
  | arrayBufferPrototype
  | dataViewPrototype
  | typedArrayBasePrototype
  | int8ArrayPrototype
  | int16ArrayPrototype
  | int32ArrayPrototype
  | uint8ArrayPrototype
  | uint8ClampedArrayPrototype
  | uint16ArrayPrototype
  | uint32ArrayPrototype
  | float32ArrayPrototype
  | float64ArrayPrototype
  | setPrototype
  | setIteratorPrototype
  | mapPrototype
  | mapIteratorPrototype
  | regExpPrototype
  | weakMapPrototype
  | weakSetPrototype
  | arrayIteratorPrototype
  | stringIteratorPrototype
  | generatorPrototype
  | generatorFunctionPrototype
deriving DecidableEq, Fintype

/-- The parent-prototype reference each prototype is created with (lines
320–525). `JSObject::create(runtime)` with no explicit parent (Symbol,
%IteratorPrototype%, WeakMap, WeakSet) and the Set/Map iterator prototypes
(created by helpers outside the provided file) are modelled from the spec's
prototype tree. The root Object.prototype is created with the null
sentinel (`makeNullHandle`), giving `none`. -/
def parentOf : ProtoId → Option ProtoId
  | .objectPrototype => none
  | .errorPrototype => some .objectPrototype
  | .evalErrorPrototype => some .errorPrototype
  | .rangeErrorPrototype => some .errorPrototype
  | .referenceErrorPrototype => some .errorPrototype
  | .syntaxErrorPrototype => some .errorPrototype
  | .typeErrorPrototype => some .errorPrototype
  | .uriErrorPrototype => some .errorPrototype
  | .functionPrototype => some .objectPrototype
  | .stringPrototype => some .objectPrototype
  | .numberPrototype => some .objectPrototype
  | .booleanPrototype => some .objectPrototype
  | .symbolPrototype => some .objectPrototype
  | .datePrototype => some .objectPrototype
  | .iteratorPrototype => some .objectPrototype
  | .arrayPrototype => some .objectPrototype
  | .arrayBufferPrototype => some .objectPrototype
  | .dataViewPrototype => some .objectPrototype
  | .typedArrayBasePrototype => some .objectPrototype
  | .int8ArrayPrototype => some .typedArrayBasePrototype
  | .int16ArrayPrototype => some .typedArrayBasePrototype
  | .int32ArrayPrototype => some .typedArrayBasePrototype
  | .uint8ArrayPrototype => some .typedArrayBasePrototype
  | .uint8ClampedArrayPrototype => some .typedArrayBasePrototype
  | .uint16ArrayPrototype => some .typedArrayBasePrototype
  | .uint32ArrayPrototype => some .typedArrayBasePrototype
  | .float32ArrayPrototype => some .typedArrayBasePrototype
  | .float64ArrayPrototype => some .typedArrayBasePrototype
  | .setPrototype => some .objectPrototype
  | .setIteratorPrototype => some .iteratorPrototype
  | .mapPrototype => some .objectPrototype
  | .mapIteratorPrototype => some .iteratorPrototype
  | .regExpPrototype => some .objectPrototype
  | .weakMapPrototype => some .objectPrototype
  | .weakSetPrototype => some .objectPrototype
  | .arrayIteratorPrototype => some .iteratorPrototype
  | .stringIteratorPrototype => some .iteratorPrototype
  | .generatorPrototype => some .iteratorPrototype
  | .generatorFunctionPrototype => some .functionPrototype

/-- Iteration `ancestor n p`: follow `n` parent references from `p`; `none` once the
chain has run past the root. -/
def ancestor : Nat → ProtoId → Option ProtoId
  | 0, p => some p
  | n + 1, p =>
    match parentOf p with
    | none => none
    | some q => ancestor n q

/-- The number of parent steps from a prototype up to Object.prototype. -/
def chainLength : ProtoId → Nat
  | .objectPrototype => 0
  | .evalErrorPrototype | .rangeErrorPrototype | .referenceErrorPrototype
  | .syntaxErrorPrototype | .typeErrorPrototype | .uriErrorPrototype => 2
  | .int8ArrayPrototype | .int16ArrayPrototype | .int32ArrayPrototype
  | .uint8ArrayPrototype | .uint8ClampedArrayPrototype
  | .uint16ArrayPrototype | .uint32ArrayPrototype
  | .float32ArrayPrototype | .float64ArrayPrototype => 2
  | .setIteratorPrototype | .mapIteratorPrototype
  | .arrayIteratorPrototype | .stringIteratorPrototype
  | .generatorPrototype | .generatorFunctionPrototype => 2
  | _ => 1

/-- Modelled from the spec: a ConstructorFunction captures its prototype's
identity at creation and exposes that same identity as its `.prototype`
property (the `create*Constructor` bodies are repository code outside the
provided file). -/
structure BuiltinConstructor where
  name : String
  capturedPrototype : ProtoId
  exposedPrototypeProp : ProtoId

/-- Modelled from the spec: the constructor-creation step for one built-in
wires both the captured reference and the exposed `.prototype` slot to the
same prototype object. -/
def makeConstructor (name : String) (proto : ProtoId) : BuiltinConstructor :=
  { name := name, capturedPrototype := proto, exposedPrototypeProp := proto }

/-- The constructors created by `initGlobalObject` (lines 527–594), in
source order, each paired with the prototype it captures. -/
def bootstrapConstructors : List BuiltinConstructor :=
  [makeConstructor "Object" .objectPrototype,
   makeConstructor "Error" .errorPrototype,
   makeConstructor "EvalError" .evalErrorPrototype,
   makeConstructor "RangeError" .rangeErrorPrototype,
   makeConstructor "ReferenceError" .referenceErrorPrototype,
   makeConstructor "SyntaxError" .syntaxErrorPrototype,
   makeConstructor "TypeError" .typeErrorPrototype,
   makeConstructor "URIError" .uriErrorPrototype,
   makeConstructor "String" .stringPrototype,
   makeConstructor "Function" .functionPrototype,
   makeConstructor "Number" .numberPrototype,
   makeConstructor "Boolean" .booleanPrototype,
   makeConstructor "Date" .datePrototype,
   makeConstructor "RegExp" .regExpPrototype,
   makeConstructor "Array" .arrayPrototype,
   makeConstructor "ArrayBuffer" .arrayBufferPrototype,
   makeConstructor "DataView" .dataViewPrototype,
   makeConstructor "TypedArrayBase" .typedArrayBasePrototype,
   makeConstructor "Int8Array" .int8ArrayPrototype,
   makeConstructor "Int16Array" .int16ArrayPrototype,
   makeConstructor "Int32Array" .int32ArrayPrototype,
   makeConstructor "Uint8Array" .uint8ArrayPrototype,
   makeConstructor "Uint8ClampedArray" .uint8ClampedArrayPrototype,
   makeConstructor "Uint16Array" .uint16ArrayPrototype,
   makeConstructor "Uint32Array" .uint32ArrayPrototype,
   makeConstructor "Float32Array" .float32ArrayPrototype,
   makeConstructor "Float64Array" .float64ArrayPrototype,
   makeConstructor "Set" .setPrototype,
   makeConstructor "Map" .mapPrototype,
   makeConstructor "WeakMap" .weakMapPrototype,
   makeConstructor "WeakSet" .weakSetPrototype,
   makeConstructor "Symbol" .symbolPrototype]

/-! ## Bootstrap sequencing and runtime slots (lines 254–681)

A step log of `initGlobalObject` in source order, and a state fold that
assigns a fresh identity to every allocated object; `defineGlobalFunc`
(lines 282–293) creates one NativeFunction and installs that same object as
the global property value, and the `parseInt`/`parseFloat` call sites
(lines 380–390) additionally capture the returned identity in the two
dedicated runtime slots. -/
inductive BootStep where
  | defineConstant (name : String)
  | createPrototype (p : ProtoId)
  | createArrayClass
  | createThrowTypeErrorFn
  | createThrowTypeErrorAccessor
  | defineGlobalFunction (name : String)
  | createConstructor (name : String)
  | defineNamespaceObject (name : String)
deriving DecidableEq

set_option maxHeartbeats 1000000 in
/-- The steps of `initGlobalObject` in source order. The Symbol constructor
is created only when the host enables ES6 Symbol (line 592); it is included
here. The debugger-only namespace (lines 629–639) is compiled out. -/
def bootSteps : List BootStep :=
  [.defineConstant "NaN", .defineConstant "Infinity",
   .defineConstant "undefined",
   .createPrototype .objectPrototype,
   .createPrototype .errorPrototype,
   .createPrototype .evalErrorPrototype,
   .createPrototype .rangeErrorPrototype,
   .createPrototype .referenceErrorPrototype,
   .createPrototype .syntaxErrorPrototype,
   .createPrototype .typeErrorPrototype,
   .createPrototype .uriErrorPrototype,
   .createPrototype .functionPrototype,
   .createThrowTypeErrorFn, .createThrowTypeErrorAccessor,
   .defineGlobalFunction "parseInt", .defineGlobalFunction "parseFloat",
   .createPrototype .stringPrototype,
   .createPrototype .numberPrototype,
   .createPrototype .booleanPrototype,
   .createPrototype .symbolPrototype,
   .createPrototype .datePrototype,
   .createPrototype .iteratorPrototype,
   .createPrototype .arrayPrototype,
   .createArrayClass,
   .createPrototype .arrayBufferPrototype,
   .createPrototype .dataViewPrototype,
   .createPrototype .typedArrayBasePrototype,
   .createPrototype .int8ArrayPrototype,
   .createPrototype .int16ArrayPrototype,
   .createPrototype .int32ArrayPrototype,
   .createPrototype .uint8ArrayPrototype,
   .createPrototype .uint8ClampedArrayPrototype,
   .createPrototype .uint16ArrayPrototype,
   .createPrototype .uint32ArrayPrototype,
   .createPrototype .float32ArrayPrototype,
   .createPrototype .float64ArrayPrototype,
   .createPrototype .setPrototype,
   .createPrototype .setIteratorPrototype,
   .createPrototype .mapPrototype,
   .createPrototype .mapIteratorPrototype,
   .createPrototype .regExpPrototype,
   .createPrototype .weakMapPrototype,
   .createPrototype .weakSetPrototype,
   .createPrototype .arrayIteratorPrototype,
   .createPrototype .stringIteratorPrototype,
   .createPrototype .generatorPrototype,
   .createPrototype .generatorFunctionPrototype,
   .createConstructor "Object", .createConstructor "Error",
   .createConstructor "EvalError", .createConstructor "RangeError",
   .createConstructor "ReferenceError", .createConstructor "SyntaxError",
   .createConstructor "TypeError", .createConstructor "URIError",
   .createConstructor "String", .createConstructor "Function",
   .createConstructor "Number", .createConstructor "Boolean",
   .createConstructor "Date", .createConstructor "RegExp",
   .createConstructor "Array", .createConstructor "ArrayBuffer",
   .createConstructor "DataView", .createConstructor "TypedArrayBase",
   .createConstructor "Int8Array", .createConstructor "Int16Array",
   .createConstructor "Int32Array", .createConstructor "Uint8Array",
   .createConstructor "Uint8ClampedArray", .createConstructor "Uint16Array",
   .createConstructor "Uint32Array", .createConstructor "Float32Array",
   .createConstructor "Float64Array", .createConstructor "Set",
   .createConstructor "Map", .createConstructor "WeakMap",
   .createConstructor "WeakSet", .createConstructor "Symbol",
   .defineNamespaceObject "Math", .defineNamespaceObject "JSON",
   .defineNamespaceObject "HermesInternal",
   .defineGlobalFunction "print", .defineGlobalFunction "eval",
   .defineGlobalFunction "isNaN", .defineGlobalFunction "isFinite",
   .defineGlobalFunction "escape", .defineGlobalFunction "unescape",
   .defineGlobalFunction "decodeURI",
   .defineGlobalFunction "decodeURIComponent",
   .defineGlobalFunction "encodeURI",
   .defineGlobalFunction "encodeURIComponent",
   .defineGlobalFunction "gc"]

/-- The runtime slots and global-function table relevant to the aliasing
claim, with `nextId` the allocation counter for object identities. -/
structure RuntimeSlots where
  nextId : Nat
  parseIntFunction : Option Nat
  parseFloatFunction : Option Nat
  globalFunctions : List (String × Nat)
deriving DecidableEq

/-- Execute one bootstrap step against the runtime slots. -/
def applyStep (st : RuntimeSlots) (step : BootStep) : RuntimeSlots :=
  match step with
  | .defineConstant _ => st
  | .createPrototype _ => { st with nextId := st.nextId + 1 }
  | .createArrayClass => { st with nextId := st.nextId + 1 }
  | .createThrowTypeErrorFn => { st with nextId := st.nextId + 1 }
  | .createThrowTypeErrorAccessor => { st with nextId := st.nextId + 1 }
  | .defineGlobalFunction name =>
    let id := st.nextId
    { st with
      nextId := id + 1,
      globalFunctions := st.globalFunctions ++ [(name, id)],
      parseIntFunction :=
        if name = "parseInt" then some id else st.parseIntFunction,
      parseFloatFunction :=
        if name = "parseFloat" then some id else st.parseFloatFunction }
  | .createConstructor _ => { st with nextId := st.nextId + 1 }
  | .defineNamespaceObject _ => { st with nextId := st.nextId + 1 }

/-- The runtime slots after `initGlobalObject` completes. -/
def finalSlots : RuntimeSlots :=
  bootSteps.foldl applyStep
    { nextId := 0, parseIntFunction := none, parseFloatFunction := none,
      globalFunctions := [] }

/-! ## Concrete input strings used in witnesses and counterexamples -/

/-- The characters of `"0x1F"`. -/
def input0x1F : List Char := "0x1F".data

/-- The characters of `"0X1f"`. -/
def input0X1f : List Char := "0X1f".data

/-- The characters of `"5"`. -/
def input5 : List Char := "5".data

/-- The characters of `"11"`. -/
def input11 : List Char := "11".data

/-- The characters of `"1e"`. -/
def input1e : List Char := "1e".data

/-- The characters of `"3.14abc"`. -/
def input314abc : List Char := "3.14abc".data

/-- The characters of `".5"`. -/
def inputDot5 : List Char := ".5".data

/-- The characters of `"   Infinity"`. -/
def inputWsInfinity : List Char := "   Infinity".data

/-- The characters of `"-InfinityXYZ"`. -/
def inputNegInfinityXYZ : List Char := "-InfinityXYZ".data

/-- The characters of `"1F"`. -/
def input1F : List Char := "1F".data

/-! ## Arithmetic and character lemmas -/

theorem toInt32_small {k : Int} (h0 : 0 ≤ k) (h : k < 2 ^ 31) :
    toInt32 k = k := by
  unfold toInt32; omega

theorem toInt32_toInt32 (b : Int) : toInt32 (toInt32 b) = toInt32 b := by
  unfold toInt32; omega

theorem letterToLower_toNat (c : Char) :
    (letterToLower c).toNat =
      if 65 ≤ c.toNat ∧ c.toNat ≤ 90 then c.toNat + 32 else c.toNat := by
  unfold letterToLower
  split
  case isTrue h =>
    rw [if_pos (⟨h.1, h.2⟩ : 65 ≤ c.toNat ∧ c.toNat ≤ 90)]
    have hv : Nat.isValidChar (c.toNat + 32) :=
      Or.inl (Nat.lt_of_le_of_lt (Nat.add_le_add_right h.2 32) (by decide))
    rw [Char.ofNat, dif_pos hv]
    simp [Char.ofNatAux, Char.toNat, UInt32.toNat, BitVec.toNat_ofNatLt]
  case isFalse h =>
    rw [if_neg (fun hc => h ⟨hc.1, hc.2⟩)]

/-- The setup step of `parseInt` examines the radix only through `toInt32`. -/
theorem parseIntRadixSetup_toInt32 (b : Int) :
    parseIntRadixSetup (some b) = parseIntRadixSetup (some (toInt32 b)) := by
  simp only [parseIntRadixSetup, toInt32_toInt32]

/-! ## Claim C10: explicit radix 0 behaves as an unspecified radix -/

/-- C10: for every input string, calling `parseInt` with an explicit radix
argument of 0 behaves identically to calling it with the radix unspecified;
in particular the `0x` prefix is still stripped and `parseInt("0x1F", 0)`
is 31. -/
theorem claim_C10 :
    (∀ s, parseInt s (some 0) = parseInt s none) ∧
    parseInt input0x1F (some 0) = some 31 ∧
    parseInt input0x1F none = some 31 := by
  exact ⟨fun s => rfl, by decide, by decide⟩

/-! ## Claim C5: radix truncation and range check -/

/-- C5: the radix is examined only after `toInt32` truncation, and any
truncated radix outside `[2, 36]` other than 0 yields NaN regardless of the
string; `parseInt("5", 37)` and radix 1 give NaN, while a radix of
`2^32 + 2` truncates to 2 and parses `"11"` in binary. -/
theorem claim_C5 :
    (∀ s b, parseInt s (some b) = parseInt s (some (toInt32 b))) ∧
    (∀ s b, toInt32 b ≠ 0 → toInt32 b < 2 ∨ 36 < toInt32 b →
      parseInt s (some b) = none) ∧
    parseInt input5 (some 37) = none ∧
    parseInt input5 (some 1) = none ∧
    parseInt input11 (some (2 ^ 32 + 2)) = some 3 ∧
    parseInt input11 (some 2) = some 3 := by
  refine ⟨fun s b => ?_, fun s b h0 hr => ?_, by decide, by decide, by decide,
    by decide⟩
  · unfold parseInt
    rw [parseIntRadixSetup_toInt32]
  · have hset : parseIntRadixSetup (some b) = none := by
      simp only [parseIntRadixSetup]
      rw [if_neg h0, if_pos (by omega)]
    unfold parseInt
    rw [hset]

/-- Witness for C5 at the concrete out-of-range radix 37. -/
theorem claim_C5_witness :
    toInt32 37 ≠ 0 ∧ (toInt32 37 < 2 ∨ 36 < toInt32 37) ∧
    parseInt input5 (some 37) = none :=
  ⟨by decide, by decide, claim_C5.2.1 input5 37 (by decide) (by decide)⟩

/-! ## Claim C1: radix defaulting and 0x prefix stripping -/

/-- Reduction of `parseInt` once the radix setup step is known. -/
theorem parseInt_eq_body (s : List Char) (r : Option Int) (radix : Int)
    (strip : Bool) (hset : parseIntRadixSetup r = some (radix, strip)) :
    parseInt s r =
      (let s₁ := s.dropWhile isTrimmedChar
       let sign : Int := if s₁.head? = some '-' then -1 else 1
       let s₂ := if s₁.head? = some '+' ∨ s₁.head? = some '-' then s₁.tail else s₁
       let stripped := strip0x strip radix s₂
       let digits := stripped.1.takeWhile (isValidRadixChar · stripped.2)
       if digits.isEmpty then none
       else some (sign * parseIntWithRadix digits stripped.2)) := by
  unfold parseInt
  rw [hset]

/-- An explicit in-range radix other than 16 keeps its value and clears the
strip flag. -/
theorem parseIntRadixSetup_explicit {k : Int} (h2 : 2 ≤ k) (h36 : k ≤ 36)
    (h16 : k ≠ 16) : parseIntRadixSetup (some k) = some (k, false) := by
  simp only [parseIntRadixSetup]
  rw [toInt32_small (by omega) (by omega)]
  rw [if_neg (by omega), if_neg (by omega), if_pos h16]

/-- Zero is a valid digit in every radix from 2 up. -/
theorem isValidRadixChar_zero {k : Int} (h2 : 2 ≤ k) :
    isValidRadixChar '0' k = true := by
  unfold isValidRadixChar
  rw [if_pos (by decide : '0' ≤ '0' ∧ '0' ≤ '9')]
  simp only [decide_eq_true_eq]
  exact Or.inr (by omega)

/-- C1: the active base defaults to 10 when the radix is unspecified or
zero; an unspecified (or zero) radix together with a `0x`/`0X` prefix
consumes the prefix and switches the base to 16; an explicit in-range radix
other than 16 keeps the strip flag off, and then hex-looking text gets no
prefix stripped — the scan starts at the `0` itself. -/
theorem claim_C1 :
    (parseIntRadixSetup none = some (10, true) ∧
     parseIntRadixSetup (some 0) = some (10, true)) ∧
    (∀ rest, parseInt ('0' :: 'x' :: rest) none =
       (if (rest.takeWhile (isValidRadixChar · 16)).isEmpty then none
        else some (parseIntWithRadix (rest.takeWhile (isValidRadixChar · 16)) 16))) ∧
    (∀ rest, parseInt ('0' :: 'X' :: rest) none =
       (if (rest.takeWhile (isValidRadixChar · 16)).isEmpty then none
        else some (parseIntWithRadix (rest.takeWhile (isValidRadixChar · 16)) 16))) ∧
    (∀ k : Int, 2 ≤ k → k ≤ 36 → k ≠ 16 →
       parseIntRadixSetup (some k) = some (k, false)) ∧
    (∀ (k : Int) (rest : List Char), 2 ≤ k → k ≤ 36 → k ≠ 16 →
       parseInt ('0' :: 'x' :: rest) (some k) =
         some (parseIntWithRadix
           (('0' :: 'x' :: rest).takeWhile (isValidRadixChar · k)) k)) := by
  refine ⟨⟨by decide, by decide⟩, fun rest => ?_, fun rest => ?_,
    fun k h2 h36 h16 => parseIntRadixSetup_explicit h2 h36 h16,
    fun k rest h2 h36 h16 => ?_⟩
  · have h : parseInt ('0' :: 'x' :: rest) none =
        (if (rest.takeWhile (isValidRadixChar · 16)).isEmpty then none
         else some (1 * parseIntWithRadix
           (rest.takeWhile (isValidRadixChar · 16)) 16)) := rfl
    rw [h]
    cases hb : (rest.takeWhile (isValidRadixChar · 16)).isEmpty <;> simp [hb]
  · have h : parseInt ('0' :: 'X' :: rest) none =
        (if (rest.takeWhile (isValidRadixChar · 16)).isEmpty then none
         else some (1 * parseIntWithRadix
           (rest.takeWhile (isValidRadixChar · 16)) 16)) := rfl
    rw [h]
    cases hb : (rest.takeWhile (isValidRadixChar · 16)).isEmpty <;> simp [hb]
  · rw [parseInt_eq_body ('0' :: 'x' :: rest) (some k) k false
      (parseIntRadixSetup_explicit h2 h36 h16)]
    show (if (('0' :: 'x' :: rest).takeWhile (isValidRadixChar · k)).isEmpty
          then none
          else some (1 * parseIntWithRadix
            (('0' :: 'x' :: rest).takeWhile (isValidRadixChar · k)) k)) = _
    have hne : (('0' :: 'x' :: rest).takeWhile
        (isValidRadixChar · k)).isEmpty = false := by
      rw [List.takeWhile_cons, if_pos (isValidRadixChar_zero h2)]
      rfl
    rw [hne]
    simp

/-- Witness for C1 at the concrete explicit radix 10 and text `0x1F`. -/
theorem claim_C1_witness :
    (2 : Int) ≤ 10 ∧ (10 : Int) ≤ 36 ∧ (10 : Int) ≠ 16 ∧
    parseInt ('0' :: 'x' :: input1F) (some 10) =
      some (parseIntWithRadix
        (('0' :: 'x' :: input1F).takeWhile (isValidRadixChar · 10)) 10) :=
  ⟨by norm_num, by norm_num, by norm_num,
    claim_C1.2.2.2.2 10 input1F (by norm_num) (by norm_num) (by norm_num)⟩

/-! ## Claim C3: the scanning loop of parseInt -/

/-- Characterization: `isValidRadixChar` accepts exactly the characters whose digit value
under the case-insensitive 0–9-then-letters alphabet is below the radix. -/
theorem isValidRadixChar_iff (c : Char) (r : Int) (h2 : 2 ≤ r) (h36 : r ≤ 36) :
    isValidRadixChar c r = true ↔
      ∃ v, charDigitValue c = some v ∧ (v : Int) < r := by
  have e0 : '0'.toNat = 48 := rfl
  have ea : 'a'.toNat = 97 := rfl
  unfold isValidRadixChar charDigitValue
  by_cases hd : '0' ≤ c ∧ c ≤ '9'
  · rw [if_pos hd, if_pos hd]
    have h48 : 48 ≤ c.toNat := hd.1
    have h57 : c.toNat ≤ 57 := hd.2
    simp only [decide_eq_true_eq, Option.some.injEq, exists_eq_left', e0]
    omega
  · rw [if_neg hd, if_neg hd]
    have hm := letterToLower_toNat c
    by_cases hl : 'a' ≤ letterToLower c ∧ letterToLower c ≤ 'z'
    · rw [if_pos hl]
      have h97 : 97 ≤ (letterToLower c).toNat := hl.1
      have h122 : (letterToLower c).toNat ≤ 122 := hl.2
      simp only [decide_eq_true_eq, Option.some.injEq, exists_eq_left', ea]
      rw [show ('a' ≤ letterToLower c) = (97 ≤ (letterToLower c).toNat) from rfl]
      omega
    · rw [if_neg hl]
      simp only [decide_eq_true_eq]
      constructor
      · rintro ⟨hr10, hla, hlt⟩
        exfalso
        refine hl ⟨hla, ?_⟩
        have h97 : 97 ≤ (letterToLower c).toNat := hla
        show (letterToLower c).toNat ≤ 122
        rw [ea] at hlt
        omega
      · rintro ⟨v, hv, _⟩
        cases hv

/-- Every accepted radix character lies in the ASCII digit or letter
ranges. -/
theorem isValidRadixChar_ranges {c : Char} {r : Int} (h36 : r ≤ 36)
    (h : isValidRadixChar c r = true) :
    (48 ≤ c.toNat ∧ c.toNat ≤ 57) ∨ (65 ≤ c.toNat ∧ c.toNat ≤ 90) ∨
      (97 ≤ c.toNat ∧ c.toNat ≤ 122) := by
  have ea : 'a'.toNat = 97 := rfl
  unfold isValidRadixChar at h
  by_cases hd : '0' ≤ c ∧ c ≤ '9'
  · exact Or.inl ⟨hd.1, hd.2⟩
  · rw [if_neg hd] at h
    simp only [decide_eq_true_eq] at h
    have hm := letterToLower_toNat c
    by_cases hu : 65 ≤ c.toNat ∧ c.toNat ≤ 90
    · exact Or.inr (Or.inl hu)
    · rw [if_neg hu] at hm
      have h97 : 97 ≤ (letterToLower c).toNat := h.2.1
      have hlt := h.2.2
      rw [ea] at hlt
      refine Or.inr (Or.inr ⟨by omega, by omega⟩)

/-- Accepted radix characters are never whitespace or line terminators. -/
theorem isValidRadixChar_not_trimmed {c : Char} {r : Int} (h36 : r ≤ 36)
    (h : isValidRadixChar c r = true) : isTrimmedChar c = false := by
  have hr := isValidRadixChar_ranges h36 h
  unfold isTrimmedChar isWhiteSpaceChar isLineTerminatorChar
  rw [Bool.or_eq_false_iff]
  constructor <;> rw [decide_eq_false_iff_not] <;> intro hP <;> omega

/-- Accepted radix characters are never sign characters. -/
theorem isValidRadixChar_not_sign {c : Char} {r : Int} (h36 : r ≤ 36)
    (h : isValidRadixChar c r = true) : c ≠ '+' ∧ c ≠ '-' := by
  have hr := isValidRadixChar_ranges h36 h
  constructor <;> intro hc <;> subst hc <;> revert hr <;> decide

/-- Trimming: `parseInt` ignores a leading run of whitespace / line-terminator
characters. -/
theorem parseInt_trim_append (l s : List Char) (r : Option Int)
    (h : ∀ c ∈ l, isTrimmedChar c = true) :
    parseInt (l ++ s) r = parseInt s r := by
  have hnil : l.dropWhile isTrimmedChar = [] :=
    List.dropWhile_eq_nil_iff.mpr h
  have hd : (l ++ s).dropWhile isTrimmedChar = s.dropWhile isTrimmedChar := by
    rw [List.dropWhile_append, hnil]
    rfl
  rcases hset : parseIntRadixSetup r with _ | ⟨radix, strip⟩
  · unfold parseInt
    rw [hset]
  · rw [parseInt_eq_body (l ++ s) r radix strip hset,
      parseInt_eq_body s r radix strip hset, hd]

/-- A bare sign (or the empty string) yields NaN for every radix
argument. -/
theorem parseInt_no_digits (r : Option Int) :
    parseInt [] r = none ∧ parseInt ['+'] r = none ∧
      parseInt ['-'] r = none := by
  rcases hset : parseIntRadixSetup r with _ | ⟨radix, strip⟩
  · refine ⟨?_, ?_, ?_⟩ <;> (unfold parseInt; rw [hset])
  · refine ⟨?_, ?_, ?_⟩ <;>
      rw [parseInt_eq_body _ r radix strip hset] <;> cases strip <;> rfl

/-- The Horner accumulation of `parseIntWithRadix` equals the positional
radix-weighted sum of the digit values. -/
theorem parseIntWithRadix_eq_sum (digits : List Char) (radix : Int) :
    parseIntWithRadix digits radix =
      ∑ i ∈ Finset.range digits.length,
        ((charDigitValue (digits.reverse.getD i ' ')).getD 0 : Int) *
          radix ^ i := by
  induction digits using List.reverseRecOn with
  | nil => simp [parseIntWithRadix]
  | append_singleton l c ih =>
    have hfold : parseIntWithRadix (l ++ [c]) radix =
        parseIntWithRadix l radix * radix +
          ((charDigitValue c).getD 0 : Int) := by
      unfold parseIntWithRadix
      rw [List.foldl_append]
      rfl
    rw [hfold, ih, List.reverse_append]
    simp only [List.reverse_singleton, List.singleton_append,
      List.length_append, List.length_singleton]
    rw [Finset.sum_range_succ']
    simp only [List.getD_cons_succ, List.getD_cons_zero, pow_zero, mul_one,
      pow_succ]
    rw [Finset.sum_mul]
    congr 1
    exact Finset.sum_congr rfl fun i _ => by ring

/-- Scanning: `parseInt` on a maximal valid digit run followed by a rejected
remainder: the result is the (optionally negated) accumulated value of
exactly that run. Stated for explicit radices outside the prefix-stripping
path (`radix ≠ 16`). -/
theorem parseInt_digit_run (radix : Int) (digits rest : List Char)
    (h2 : 2 ≤ radix) (h36 : radix ≤ 36) (h16 : radix ≠ 16)
    (hne : digits ≠ [])
    (hall : ∀ c ∈ digits, isValidRadixChar c radix = true)
    (hstop : ∀ c, rest.head? = some c → isValidRadixChar c radix = false) :
    parseInt (digits ++ rest) (some radix) =
      some (parseIntWithRadix digits radix) ∧
    parseInt ('-' :: (digits ++ rest)) (some radix) =
      some (-parseIntWithRadix digits radix) := by
  obtain ⟨d, ds, rfl⟩ : ∃ d ds, digits = d :: ds := by
    cases digits with
    | nil => exact absurd rfl hne
    | cons d ds => exact ⟨d, ds, rfl⟩
  have hd_valid := hall d (by simp)
  have htrim := isValidRadixChar_not_trimmed h36 hd_valid
  have hsign := isValidRadixChar_not_sign h36 hd_valid
  have hrest : rest.takeWhile (isValidRadixChar · radix) = [] := by
    cases rest with
    | nil => rfl
    | cons c t =>
      rw [List.takeWhile_cons, if_neg]
      simp [hstop c rfl]
  have htake : (d :: (ds ++ rest)).takeWhile (isValidRadixChar · radix) =
      d :: ds := by
    have h1 : ((d :: ds) ++ rest).takeWhile (isValidRadixChar · radix) =
        d :: ds := by
      rw [List.takeWhile_append,
        if_pos (by rw [List.takeWhile_eq_self_iff.mpr hall]), hrest,
        List.append_nil]
    simpa [List.cons_append] using h1
  have hset := parseIntRadixSetup_explicit h2 h36 h16
  constructor
  · rw [parseInt_eq_body ((d :: ds) ++ rest) (some radix) radix false hset]
    simp only [List.cons_append, List.dropWhile_cons, htrim,
      Bool.false_eq_true, if_false, List.head?_cons, Option.some.injEq,
      hsign.1, hsign.2, strip0x, or_self, if_false, htake]
    simp [htake]
  · rw [parseInt_eq_body ('-' :: ((d :: ds) ++ rest)) (some radix) radix
      false hset]
    show (if ((d :: (ds ++ rest)).takeWhile
            (isValidRadixChar · radix)).isEmpty then none
          else some (-1 * parseIntWithRadix
            ((d :: (ds ++ rest)).takeWhile (isValidRadixChar · radix))
            radix)) = _
    rw [htake]
    show some (-1 * parseIntWithRadix (d :: ds) radix) = _
    rw [neg_one_mul]

/-- C3: `parseInt` skips leading whitespace/line terminators, consumes an
optional sign, scans the longest prefix of valid radix digits (0–9 then
letters case-insensitively, up to digit value radix−1); an empty digit run
(including a bare sign) gives NaN, and otherwise the result is the sign
applied to the radix-weighted sum of the consumed digit run. -/
theorem claim_C3 :
    (∀ (c : Char) (r : Int), 2 ≤ r → r ≤ 36 →
      (isValidRadixChar c r = true ↔
        ∃ v, charDigitValue c = some v ∧ (v : Int) < r)) ∧
    (∀ (l s : List Char) (r : Option Int),
      (∀ c ∈ l, isTrimmedChar c = true) →
      parseInt (l ++ s) r = parseInt s r) ∧
    (∀ r : Option Int, parseInt [] r = none ∧ parseInt ['+'] r = none ∧
      parseInt ['-'] r = none) ∧
    (∀ (digits : List Char) (radix : Int),
      parseIntWithRadix digits radix =
        ∑ i ∈ Finset.range digits.length,
          ((charDigitValue (digits.reverse.getD i ' ')).getD 0 : Int) *
            radix ^ i) ∧
    (∀ (radix : Int) (digits rest : List Char),
      2 ≤ radix → radix ≤ 36 → radix ≠ 16 → digits ≠ [] →
      (∀ c ∈ digits, isValidRadixChar c radix = true) →
      (∀ c, rest.head? = some c → isValidRadixChar c radix = false) →
      parseInt (digits ++ rest) (some radix) =
        some (parseIntWithRadix digits radix) ∧
      parseInt ('-' :: (digits ++ rest)) (some radix) =
        some (-parseIntWithRadix digits radix)) :=
  ⟨isValidRadixChar_iff, parseInt_trim_append, parseInt_no_digits,
    parseIntWithRadix_eq_sum,
    fun radix digits rest h2 h36 h16 hne hall hstop =>
      parseInt_digit_run radix digits rest h2 h36 h16 hne hall hstop⟩

/-- Witness for C3: the digit run `1F` in radix 36 followed by a space. -/
theorem claim_C3_witness :
    parseInt (input1F ++ [' ']) (some 36) =
      some (parseIntWithRadix input1F 36) ∧
    parseInt ('-' :: (input1F ++ [' '])) (some 36) =
      some (-parseIntWithRadix input1F 36) :=
  claim_C3.2.2.2.2 36 input1F [' '] (by norm_num) (by norm_num)
    (by norm_num) (by decide) (by decide) (by decide)

/-! ## Claim C4: the Infinity/NaN token prefixes of parseFloat -/

/-- The hand-rolled `isPrefix` agrees with the standard prefix test. -/
theorem isPrefix_eq_isPrefixOf (l1 l2 : List Char) :
    isPrefix l1 l2 = l1.isPrefixOf l2 := by
  induction l1 generalizing l2 with
  | nil =>
    unfold isPrefix isPrefixLoop
    cases l2 <;> simp [List.isPrefixOf]
  | cons c t1 ih =>
    cases l2 with
    | nil =>
      unfold isPrefix
      simp [List.isPrefixOf]
    | cons d t2 =>
      unfold isPrefix isPrefixLoop
      have ih' := ih t2
      unfold isPrefix at ih'
      by_cases hlen : t2.length < t1.length
      · rw [if_pos (by simpa using hlen)]
        rw [if_pos hlen] at ih'
        simp [List.isPrefixOf, ← ih']
      · rw [if_neg (by simpa using hlen)]
        rw [if_neg hlen] at ih'
        simp only [List.isPrefixOf, ← ih']
        by_cases hcd : c = d <;> simp [hcd]

/-- A prefix test fails as soon as the heads differ. -/
theorem isPrefixOf_cons_ne (a b : Char) (as bs : List Char)
    (h : (a == b) = false) : (a :: as).isPrefixOf (b :: bs) = false := by
  simp [List.isPrefixOf, h]

/-- C4: after trimming, a partial match of `Infinity`, `+Infinity`,
`-Infinity` or `NaN` short-circuits `parseFloat`, returning +∞, +∞, −∞ or
NaN respectively; `isPrefix` is the standard begins-with test. -/
theorem claim_C4 :
    (∀ l1 l2 : List Char, isPrefix l1 l2 = l1.isPrefixOf l2) ∧
    (∀ s, isPrefix strInfinity (s.dropWhile isTrimmedChar) = true →
      parseFloat s = .inf) ∧
    (∀ s, isPrefix strPositiveInfinity (s.dropWhile isTrimmedChar) = true →
      parseFloat s = .inf) ∧
    (∀ s, isPrefix strNegativeInfinity (s.dropWhile isTrimmedChar) = true →
      parseFloat s = .negInf) ∧
    (∀ s, isPrefix strNaN (s.dropWhile isTrimmedChar) = true →
      parseFloat s = .nan) ∧
    parseFloat inputWsInfinity = .inf ∧
    parseFloat inputNegInfinityXYZ = .negInf := by
  have hInf : ∀ (b : Char) (X : List Char), (('I' : Char) == b) = false →
      isPrefix strInfinity (b :: X) = false := fun b X hb => by
    rw [isPrefix_eq_isPrefixOf]
    exact isPrefixOf_cons_ne 'I' b _ X hb
  have hPos : ∀ (b : Char) (X : List Char), (('+' : Char) == b) = false →
      isPrefix strPositiveInfinity (b :: X) = false := fun b X hb => by
    rw [isPrefix_eq_isPrefixOf]
    exact isPrefixOf_cons_ne '+' b _ X hb
  have hNeg : ∀ (b : Char) (X : List Char), (('-' : Char) == b) = false →
      isPrefix strNegativeInfinity (b :: X) = false := fun b X hb => by
    rw [isPrefix_eq_isPrefixOf]
    exact isPrefixOf_cons_ne '-' b _ X hb
  refine ⟨isPrefix_eq_isPrefixOf, fun s h => ?_, fun s h => ?_,
    fun s h => ?_, fun s h => ?_, by decide, by decide⟩
  · unfold parseFloat
    simp only [h]
    rfl
  · have h' := h
    rw [isPrefix_eq_isPrefixOf, List.isPrefixOf_iff_prefix] at h'
    obtain ⟨u, hu⟩ := h'
    have ht : s.dropWhile isTrimmedChar = '+' :: ("Infinity".data ++ u) := by
      rw [← hu]
      rfl
    rw [ht] at h
    unfold parseFloat
    simp only [ht, hInf '+' _ (by decide), h]
    rfl
  · have h' := h
    rw [isPrefix_eq_isPrefixOf, List.isPrefixOf_iff_prefix] at h'
    obtain ⟨u, hu⟩ := h'
    have ht : s.dropWhile isTrimmedChar = '-' :: ("Infinity".data ++ u) := by
      rw [← hu]
      rfl
    rw [ht] at h
    unfold parseFloat
    simp only [ht, hInf '-' _ (by decide), hPos '-' _ (by decide), h]
    rfl
  · have h' := h
    rw [isPrefix_eq_isPrefixOf, List.isPrefixOf_iff_prefix] at h'
    obtain ⟨u, hu⟩ := h'
    have ht : s.dropWhile isTrimmedChar = 'N' :: ("aN".data ++ u) := by
      rw [← hu]
      rfl
    rw [ht] at h
    unfold parseFloat
    simp only [ht, hInf 'N' _ (by decide), hPos 'N' _ (by decide),
      hNeg 'N' _ (by decide), h]
    rfl

/-- Witness for C4 at the concrete input `"-InfinityXYZ"`. -/
theorem claim_C4_witness :
    parseFloat inputNegInfinityXYZ = .negInf :=
  claim_C4.2.2.2.1 inputNegInfinityXYZ (by decide)

/-! ## Claim C2: the numeric path of parseFloat -/

/-- Conversion `Char.toNat` is injective. -/
theorem charToNatInj {a b : Char} (h : a.toNat = b.toNat) : a = b := by
  rw [← Char.ofNat_toNat a, ← Char.ofNat_toNat b, h]

/-- The copy-loop test `letterToLower c == 'e'` accepts exactly `e` and
`E`. -/
theorem letterToLower_eq_e_iff (c : Char) :
    letterToLower c = 'e' ↔ c = 'e' ∨ c = 'E' := by
  have hm := letterToLower_toNat c
  have hE : 'E'.toNat = 69 := rfl
  have he : 'e'.toNat = 101 := rfl
  constructor
  · intro hle
    have hnat : (letterToLower c).toNat = 101 := by rw [hle]; exact he
    by_cases hu : 65 ≤ c.toNat ∧ c.toNat ≤ 90
    · rw [if_pos hu] at hm
      exact Or.inr (charToNatInj (by omega))
    · rw [if_neg hu] at hm
      exact Or.inl (charToNatInj (by omega))
  · rintro (rfl | rfl) <;> rfl

/-- The character filter of the copy loop accepts exactly digits, `.`,
`e`, `E`, `+`, `-`. -/
theorem isFloatChar_iff (c : Char) :
    isFloatChar c = true ↔
      ((48 ≤ c.toNat ∧ c.toNat ≤ 57) ∨ c = '.' ∨ c = 'e' ∨ c = 'E' ∨
        c = '+' ∨ c = '-') := by
  unfold isFloatChar
  rw [decide_eq_true_eq, letterToLower_eq_e_iff,
    show ('0' ≤ c ∧ c ≤ '9') = (48 ≤ c.toNat ∧ c.toNat ≤ 57) from rfl]
  tauto

/-- Reduction of `parseFloat` to its numeric path when no literal token
matches. -/
theorem parseFloat_no_token (s : List Char) (h : noTokenMatch s) :
    parseFloat s =
      (let str8 := (s.dropWhile isTrimmedChar).takeWhile isFloatChar
       if str8.length = 0 then JSVal.nan
       else if (strtod str8).1 = 0 then JSVal.nan
       else JSVal.num (strtod (str8.take (strtod str8).1)).2) := by
  obtain ⟨h1, h2, h3, h4⟩ := h
  unfold parseFloat
  simp only [h1, h2, h3, h4]
  rfl

/-- Example: `parseFloat("1e")` evaluates to 1: the dangling exponent marker is
discarded by the probe-then-parse strategy. -/
theorem parseFloat_1e : parseFloat input1e = .num 1 := by
  rw [parseFloat_no_token _ (by exact ⟨by decide, by decide, by decide,
    by decide⟩)]
  have hbuf : (input1e.dropWhile isTrimmedChar).takeWhile isFloatChar =
      ['1', 'e'] := by decide
  rw [hbuf]
  show JSVal.num (strtod (['1', 'e'].take (strtod ['1', 'e']).1)).2 =
    JSVal.num 1
  congr 1
  show (1 : ℚ) *
      ((digitsToNat ['1'] : ℚ) + (digitsToNat [] : ℚ) / 10 ^ (0 : Nat)) = 1
  norm_num [digitsToNat, show '1'.toNat - '0'.toNat = 1 from rfl]

/-- Example: `parseFloat("3.14abc")` evaluates to 3.14 (exactly 157/50). -/
theorem parseFloat_314abc : parseFloat input314abc = .num (157 / 50) := by
  rw [parseFloat_no_token _ (by exact ⟨by decide, by decide, by decide,
    by decide⟩)]
  have hbuf : (input314abc.dropWhile isTrimmedChar).takeWhile isFloatChar =
      ['3', '.', '1', '4'] := by decide
  rw [hbuf]
  show JSVal.num
      (strtod (['3', '.', '1', '4'].take (strtod ['3', '.', '1', '4']).1)).2 =
    JSVal.num (157 / 50)
  congr 1
  show (1 : ℚ) *
      ((digitsToNat ['3'] : ℚ) +
        (digitsToNat ['1', '4'] : ℚ) / 10 ^ (2 : Nat)) = 157 / 50
  norm_num [digitsToNat, show '3'.toNat - '0'.toNat = 3 from rfl,
    show '1'.toNat - '0'.toNat = 1 from rfl,
    show '4'.toNat - '0'.toNat = 4 from rfl]

/-- Example: `parseFloat(".5")` evaluates to 0.5. -/
theorem parseFloat_dot5 : parseFloat inputDot5 = .num (1 / 2) := by
  rw [parseFloat_no_token _ (by exact ⟨by decide, by decide, by decide,
    by decide⟩)]
  have hbuf : (inputDot5.dropWhile isTrimmedChar).takeWhile isFloatChar =
      ['.', '5'] := by decide
  rw [hbuf]
  show JSVal.num (strtod (['.', '5'].take (strtod ['.', '5']).1)).2 =
    JSVal.num (1 / 2)
  congr 1
  show (1 : ℚ) *
      ((digitsToNat ([] : List Char) : ℚ) +
        (digitsToNat ['5'] : ℚ) / 10 ^ (1 : Nat)) = 1 / 2
  norm_num [digitsToNat, show '5'.toNat - '0'.toNat = 5 from rfl]

/-- C2: when no token prefix matches, `parseFloat` copies the longest run
of float-literal constituents, returns NaN when the run is empty or the
conversion consumes nothing, and otherwise re-converts exactly the
consumed prefix; the worked examples give the longest valid numeric
prefix. -/
theorem claim_C2 :
    (∀ c, isFloatChar c = true ↔
      ((48 ≤ c.toNat ∧ c.toNat ≤ 57) ∨ c = '.' ∨ c = 'e' ∨ c = 'E' ∨
        c = '+' ∨ c = '-')) ∧
    (∀ s, noTokenMatch s →
      (s.dropWhile isTrimmedChar).takeWhile isFloatChar = [] →
      parseFloat s = .nan) ∧
    (∀ s, noTokenMatch s →
      (strtod ((s.dropWhile isTrimmedChar).takeWhile isFloatChar)).1 = 0 →
      parseFloat s = .nan) ∧
    (∀ s, noTokenMatch s →
      0 < (strtod ((s.dropWhile isTrimmedChar).takeWhile isFloatChar)).1 →
      parseFloat s = .num (strtod
        (((s.dropWhile isTrimmedChar).takeWhile isFloatChar).take
          (strtod ((s.dropWhile isTrimmedChar).takeWhile isFloatChar)).1)).2) ∧
    parseFloat input1e = .num 1 ∧
    parseFloat input314abc = .num (157 / 50) ∧
    parseFloat inputDot5 = .num (1 / 2) := by
  refine ⟨isFloatChar_iff, fun s h hcopy => ?_, fun s h h0 => ?_,
    fun s h hpos => ?_, parseFloat_1e, parseFloat_314abc, parseFloat_dot5⟩
  · rw [parseFloat_no_token s h]
    rw [hcopy]
    rfl
  · rw [parseFloat_no_token s h]
    show (if ((s.dropWhile isTrimmedChar).takeWhile isFloatChar).length = 0
          then JSVal.nan
          else if (strtod
              ((s.dropWhile isTrimmedChar).takeWhile isFloatChar)).1 = 0
            then JSVal.nan
            else _) = JSVal.nan
    by_cases hlen :
        ((s.dropWhile isTrimmedChar).takeWhile isFloatChar).length = 0
    · rw [if_pos hlen]
    · rw [if_neg hlen, if_pos h0]
  · rw [parseFloat_no_token s h]
    show (if ((s.dropWhile isTrimmedChar).takeWhile isFloatChar).length = 0
          then JSVal.nan
          else if (strtod
              ((s.dropWhile isTrimmedChar).takeWhile isFloatChar)).1 = 0
            then JSVal.nan
            else JSVal.num (strtod
              (((s.dropWhile isTrimmedChar).takeWhile isFloatChar).take
                (strtod ((s.dropWhile isTrimmedChar).takeWhile
                  isFloatChar)).1)).2) = _
    have hlen :
        ¬((s.dropWhile isTrimmedChar).takeWhile isFloatChar).length = 0 := by
      intro hlen
      rw [List.length_eq_zero] at hlen
      rw [hlen] at hpos
      simp [strtod] at hpos
    rw [if_neg hlen, if_neg (by omega)]

/-- Witness for C2 at the concrete input `"1e"`. -/
theorem claim_C2_witness :
    parseFloat input1e = .num (strtod
      (((input1e.dropWhile isTrimmedChar).takeWhile isFloatChar).take
        (strtod ((input1e.dropWhile isTrimmedChar).takeWhile
          isFloatChar)).1)).2 :=
  claim_C2.2.2.2.1 input1e (by exact ⟨by decide, by decide, by decide,
    by decide⟩) (by decide)

/-! ## Claim C7: attributes of the installed globals -/

/-- C7: the constants `NaN`/`Infinity`/`undefined` and the internal
`HermesInternal` namespace are installed non-enumerable, non-writable,
non-configurable; the global functions and the `Math`/`JSON` namespaces are
installed non-enumerable, writable, configurable. -/
theorem claim_C7 :
    globalPropFlags "NaN" = some constantDPF ∧
    globalPropFlags "Infinity" = some constantDPF ∧
    globalPropFlags "undefined" = some constantDPF ∧
    globalPropFlags "parseInt" = some normalDPF ∧
    globalPropFlags "parseFloat" = some normalDPF ∧
    globalPropFlags "isNaN" = some normalDPF ∧
    globalPropFlags "isFinite" = some normalDPF ∧
    globalPropFlags "escape" = some normalDPF ∧
    globalPropFlags "unescape" = some normalDPF ∧
    globalPropFlags "decodeURI" = some normalDPF ∧
    globalPropFlags "decodeURIComponent" = some normalDPF ∧
    globalPropFlags "encodeURI" = some normalDPF ∧
    globalPropFlags "encodeURIComponent" = some normalDPF ∧
    globalPropFlags "print" = some normalDPF ∧
    globalPropFlags "eval" = some normalDPF ∧
    globalPropFlags "gc" = some normalDPF ∧
    globalPropFlags "Math" = some normalDPF ∧
    globalPropFlags "JSON" = some normalDPF ∧
    globalPropFlags "HermesInternal" = some constantDPF ∧
    (constantDPF.enumerable = false ∧ constantDPF.writable = false ∧
      constantDPF.configurable = false) ∧
    (normalDPF.enumerable = false ∧ normalDPF.writable = true ∧
      normalDPF.configurable = true) := by
  decide

/-! ## Claim C8: the [[ThrowTypeError]] poison pill -/

/-- C8: invoking the poison pill with any arguments raises a TypeError
carrying the fixed bootstrap message and never returns normally, and its
`length` property is made non-configurable via the set-only-configurable
descriptor. -/
theorem claim_C8 :
    (∀ args, invokeThrowTypeError args =
      .error (.typeError restrictedMessage)) ∧
    (∀ args v, invokeThrowTypeError args ≠ .ok v) ∧
    restrictedMessage = "Restricted in strict mode" ∧
    throwTypeErrorFunction.context = .fixedMessage restrictedMessage ∧
    throwTypeErrorFunction.lengthConfigurable = false ∧
    clearConfigurableDPF.setConfigurable = true ∧
    clearConfigurableDPF.setEnumerable = false ∧
    clearConfigurableDPF.setWritable = false ∧
    clearConfigurableDPF.setValue = false ∧
    clearConfigurableDPF.configurable = false :=
  ⟨fun _ => rfl, fun _ _ h => Except.noConfusion h, rfl, rfl, rfl, rfl,
    rfl, rfl, rfl, rfl⟩

/-- Witness for C8 at the empty argument list. -/
theorem claim_C8_witness :
    invokeThrowTypeError [] = .error (.typeError restrictedMessage) ∧
    invokeThrowTypeError [] ≠ .ok .undef :=
  ⟨claim_C8.1 [], claim_C8.2.1 [] .undef⟩

/-! ## Claim C9: runtime-slot aliasing and installation order -/

/-- C9: after bootstrap the `parseIntFunction` runtime slot holds the very
identity installed as the global `parseInt` property (same for
`parseFloat`), and the two functions are installed immediately after
Function.prototype and [[ThrowTypeError]] exist, before any further
prototype is created. -/
theorem claim_C9 :
    finalSlots.parseIntFunction =
      finalSlots.globalFunctions.lookup "parseInt" ∧
    finalSlots.parseIntFunction.isSome = true ∧
    finalSlots.parseFloatFunction =
      finalSlots.globalFunctions.lookup "parseFloat" ∧
    finalSlots.parseFloatFunction.isSome = true ∧
    bootSteps.indexOf (.createPrototype .functionPrototype) <
      bootSteps.indexOf .createThrowTypeErrorFn ∧
    bootSteps.indexOf .createThrowTypeErrorFn + 1 =
      bootSteps.indexOf .createThrowTypeErrorAccessor ∧
    bootSteps.indexOf .createThrowTypeErrorAccessor + 1 =
      bootSteps.indexOf (.defineGlobalFunction "parseInt") ∧
    bootSteps.indexOf (.defineGlobalFunction "parseInt") + 1 =
      bootSteps.indexOf (.defineGlobalFunction "parseFloat") ∧
    bootSteps.indexOf (.defineGlobalFunction "parseFloat") + 1 =
      bootSteps.indexOf (.createPrototype .stringPrototype) := by
  decide

/-! ## Claim C6: the prototype tree invariant -/

/-- Once an ancestry chain has run out it stays out. -/
theorem ancestor_none_mono (n : Nat) (p : ProtoId)
    (h : ancestor n p = none) : ancestor (n + 1) p = none := by
  induction n generalizing p with
  | zero => exact absurd h (by simp [ancestor])
  | succ n ih =>
    unfold ancestor at h ⊢
    cases hp : parentOf p with
    | none => rfl
    | some q =>
      rw [hp] at h
      exact ih q h

/-- Every ancestry chain has run out after three steps. -/
theorem ancestor_exhausted (m : Nat) (p : ProtoId) :
    ancestor (m + 3) p = none := by
  induction m generalizing p with
  | zero => exact (by decide : ∀ q : ProtoId, ancestor 3 q = none) p
  | succ m ih => exact ancestor_none_mono (m + 3) p (ih p)

/-- No prototype is its own proper ancestor. -/
theorem ancestor_no_cycle (p : ProtoId) (n : Nat) (hn : 0 < n) :
    ancestor n p ≠ some p := by
  match n, hn with
  | 1, _ => exact (by decide : ∀ q : ProtoId, ancestor 1 q ≠ some q) p
  | 2, _ => exact (by decide : ∀ q : ProtoId, ancestor 2 q ≠ some q) p
  | (m + 3), _ =>
    rw [ancestor_exhausted m p]
    exact Option.noConfusion

/-- C6: the parent-prototype graph is a tree rooted at Object.prototype —
the root's parent is the null sentinel, every chain reaches the root in a
bounded number of steps and then terminates, there are no cycles — and
every constructor's captured prototype is the identity exposed as its
`.prototype` property. -/
theorem claim_C6 :
    parentOf .objectPrototype = none ∧
    (∀ p : ProtoId, ancestor (chainLength p) p = some .objectPrototype) ∧
    (∀ p : ProtoId, chainLength p ≤ 2) ∧
    (∀ p : ProtoId, ancestor (chainLength p + 1) p = none) ∧
    (∀ (p : ProtoId) (n : Nat), 0 < n → ancestor n p ≠ some p) ∧
    (∀ p : ProtoId, p ≠ .objectPrototype → (parentOf p).isSome = true) ∧
    (∀ c ∈ bootstrapConstructors,
      c.capturedPrototype = c.exposedPrototypeProp) := by
  refine ⟨rfl, by decide, by decide, by decide, ancestor_no_cycle,
    by decide, by decide⟩

/-- Witness for C6 at the deepest prototype (a typed-array prototype) and
one proper-ancestor step. -/
theorem claim_C6_witness :
    (0 : Nat) < 1 ∧
      ancestor 1 ProtoId.int8ArrayPrototype ≠
        some ProtoId.int8ArrayPrototype :=
  ⟨by decide, claim_C6.2.2.2.2.1 ProtoId.int8ArrayPrototype 1 (by decide)⟩

end Hermes
